import Mathlib

/-!
Verification of the mapsearcher location service core
(`src/backend/location_api.py` and `src/backend/csv_to_sqlite.py`)
against its natural-language specification.

The embedding models:
* a database row of the `location_data` table as `Row` (every SQLite column
  is nullable, hence `Option`);
* SQLite numeric values as `ℚ` (the squared-degree distance arithmetic of
  the search path is exact rational arithmetic; the transcendental Haversine
  fallback of `csv_to_sqlite.calculate_distances` is modelled over `ℝ`);
* `search_locations` including its geofence branch: base `LIKE` filter,
  squared-degree distance filter, `ORDER BY distance` (modelled as a stable
  insertion sort, preserving the store's row order on ties), `LIMIT`, and the
  row-to-response conversion with its NULL coercions;
* the `functools.lru_cache` wrapper around `get_location_from_cache` as an
  explicit most-recently-used-first association list with capacity trimming;
* the `/search/spatial` and `/search/postcode/{query}` endpoint handlers
  including their count bookkeeping and error translation.

SQL `LIKE` patterns are modelled for wildcard-free needles (the endpoint
validators reject `%` and `_`), with SQLite's ASCII-only case folding.
-/

set_option allowUnsafeReducibility true in
attribute [semireducible] Rat.ofScientific Rat.mul Rat.inv Rat.add Rat.sub

namespace MapSearcher

/-- ASCII uppercase folding of a string, modelling Python `str.upper()` and
SQLite `LIKE` case folding on the ASCII postcode/town data. -/
def toUpperStr (s : String) : String :=
  String.mk (s.data.map Char.toUpper)

/-- ASCII lowercase folding, modelling Python `str.lower()` as used for the
case-insensitive column lookup in `search_locations`. -/
def toLowerStr (s : String) : String :=
  String.mk (s.data.map Char.toLower)

/-- Removal of space characters, modelling `query.replace(' ', '')` applied to
town/county/district search needles in `search_locations`. -/
def stripSpaces (s : String) : String :=
  String.mk (s.data.filter (fun c => !(c == ' ')))

/-- Character-list search: does the second list contain the first as a
contiguous run?  Models SQLite `LIKE '%needle%'` for a wildcard-free needle. -/
def containsRun (pat : List Char) : List Char → Bool
  | [] => pat.isEmpty
  | c :: cs => pat.isPrefixOf (c :: cs) || containsRun pat cs

/-- SQLite `column LIKE '%needle%'` (case-insensitive substring match). -/
def likeContains (pat s : String) : Bool :=
  containsRun (toUpperStr pat).data (toUpperStr s).data

/-- SQLite `column LIKE 'needle%'` (case-insensitive anchored match, used by
the non-geofence postcode search). -/
def likeStarts (pat s : String) : Bool :=
  (toUpperStr pat).data.isPrefixOf (toUpperStr s).data

/-- SQL `value LIKE pattern` on a nullable column: `NULL LIKE p` is `NULL`,
which a `WHERE` clause treats as false. -/
def optLikeContains (pat : String) (v : Option String) : Bool :=
  match v with
  | some s => likeContains pat s
  | none => false

/-- SQL `value LIKE 'needle%'` on a nullable column, `NULL` excluded. -/
def optLikeStarts (pat : String) (v : Option String) : Bool :=
  match v with
  | some s => likeStarts pat s
  | none => false

/-- A row of the `location_data` SQLite table.  Every column of a SQLite
table loaded from CSV is nullable, so every field is an `Option`. -/
structure Row where
  stem : Option String := none
  postcode : Option String := none
  latitude : Option ℚ := none
  longitude : Option ℚ := none
  town : Option String := none
  county : Option String := none
  street1 : Option String := none
  street2 : Option String := none
  district1 : Option String := none
  district2 : Option String := none
deriving DecidableEq, Repr

/-- The pydantic `LocationResponse` model of `location_api.py`. -/
structure LocationResponse where
  postcode : String
  latitude : ℚ
  longitude : ℚ
  town : String := ""
  county : String := ""
  street1 : String := ""
  street2 : String := ""
  district1 : String := ""
  district2 : String := ""
  within_geofence : Option Bool := none
  distance : Option ℚ := none
deriving DecidableEq, Repr

/-- The pydantic `LocationListResponse` model of `location_api.py`. -/
structure LocationListResponse where
  locations : List LocationResponse
  total_count : Nat
  within_radius_count : Option Nat := none
deriving DecidableEq, Repr

/-- Errors that `search_locations` signals to its callers: the `ValueError`
raised for a field absent from the schema, and the `sqlite3.Error` path
(re-raised as an HTTP 500). -/
inductive SearchError
  | unknownField (field : String)
  | databaseError
deriving DecidableEq, Repr

/-- Errors surfaced by the HTTP endpoint handlers: a 4xx validation failure
(pydantic `ValueError` or FastAPI parameter constraint) or a 5xx server
error. -/
inductive ApiError
  | validation (msg : String)
  | server (msg : String)
deriving DecidableEq, Repr

/-- Endpoint error translation: `except ValueError` becomes an HTTP 400 with
the error text, anything else an HTTP 500 (`search_by_postcode` lines
966-971 and the analogous handlers). -/
def mapSearchError : SearchError → ApiError
  | .unknownField field => .validation ("Field " ++ field ++ " not found in database")
  | .databaseError => .server "Database error"

/-- Columns of `location_data` referenced by the service's queries, as
discovered by `PRAGMA table_info(location_data)` in `search_locations`. -/
def tableColumns : List String :=
  ["Stem", "Postcode", "Latitude", "Longitude", "Town", "County",
   "Street1", "Street2", "District1", "District2"]

/-- Projection of a text column by its (case-folded) name, modelling the
`{actual_field} LIKE ?` interpolation in `search_locations`. -/
def fieldColumn (field : String) (r : Row) : Option String :=
  match toLowerStr field with
  | "stem" => r.stem
  | "postcode" => r.postcode
  | "town" => r.town
  | "county" => r.county
  | "street1" => r.street1
  | "street2" => r.street2
  | "district1" => r.district1
  | "district2" => r.district2
  | _ => none

/-- The three-way `OR` filter `({field} LIKE ? OR District1 LIKE ? OR
District2 LIKE ?)` with the space-stripped needle, shared by the geofence and
non-geofence town/county branches of `search_locations`. -/
def substringFilter (query field : String) (r : Row) : Bool :=
  optLikeContains (stripSpaces query) (fieldColumn field r) ||
  optLikeContains (stripSpaces query) r.district1 ||
  optLikeContains (stripSpaces query) r.district2

/-- The base `WHERE` filter of the geofence branch of `search_locations`:
only applied when both `query` and `field` are non-empty; the postcode field
uses `LIKE '%{query}%'` with spaces kept, other fields the three-way
substring filter. -/
def baseFilter (query field : String) (r : Row) : Bool :=
  if query ≠ "" ∧ field ≠ "" then
    if toLowerStr field == "postcode" then optLikeContains query r.postcode
    else substringFilter query field r
  else true

/-- The squared-degree distance of the geofence branch of `search_locations`:
`(((center_lon - Longitude)² + (center_lat - Latitude)²) * 111319.9)`. -/
def approxDistance (center_lat center_lon lat lon : ℚ) : ℚ :=
  ((center_lon - lon) * (center_lon - lon) +
   (center_lat - lat) * (center_lat - lat)) * (111319.9 : ℚ)

/-- The distance expression evaluated on a row: SQL arithmetic over a `NULL`
latitude or longitude yields `NULL`. -/
def geoDistance (center_lat center_lon : ℚ) (r : Row) : Option ℚ :=
  match r.latitude, r.longitude with
  | some la, some lo => some (approxDistance center_lat center_lon la lo)
  | _, _ => none

/-- Candidate rows of the geofence query paired with their distance: the
`WHERE base AND distance <= radius` filter (a `NULL` distance never passes a
`WHERE` comparison). -/
def geofenceCandidates (query field : String) (center_lat center_lon radius : ℚ)
    (db : List Row) : List (Row × ℚ) :=
  db.filterMap (fun r =>
    match geoDistance center_lat center_lon r with
    | some d =>
        if baseFilter query field r && decide (d ≤ radius) then some (r, d) else none
    | none => none)

/-- Conversion of a fetched row to `LocationResponse` (`search_locations`
lines 534-552): `NULL` latitude/longitude become `0.0`, `NULL` text columns
become `""`; a row whose `Postcode` is `NULL` fails pydantic validation and
is skipped. -/
def rowToResponse (r : Row) (dist : Option ℚ) (flag : Option Bool) :
    Option LocationResponse :=
  match r.postcode with
  | none => none
  | some pc =>
      some { postcode := pc
             latitude := r.latitude.getD 0
             longitude := r.longitude.getD 0
             town := r.town.getD ""
             county := r.county.getD ""
             street1 := r.street1.getD ""
             street2 := r.street2.getD ""
             district1 := r.district1.getD ""
             district2 := r.district2.getD ""
             within_geofence := flag
             distance := dist }

/-- The ordering used to model `ORDER BY distance`: compare candidate pairs
by their distance component.  SQLite returns equal keys in scan order here;
the stable insertion sort below preserves exactly that order on ties. -/
def distLE (a b : Row × ℚ) : Prop := a.2 ≤ b.2

instance : DecidableRel distLE := fun a b => inferInstanceAs (Decidable (a.2 ≤ b.2))

instance : IsTotal (Row × ℚ) distLE := ⟨fun a b => le_total a.2 b.2⟩

instance : IsTrans (Row × ℚ) distLE := ⟨fun _ _ _ h h' => le_trans h h'⟩

/-- The geofence pipeline of `search_locations`: filter, `ORDER BY distance`,
`LIMIT ?`, then the outer `CASE WHEN distance <= radius THEN 1 ELSE 0 END`
flag and row conversion. -/
def geoPipeline (query field : String) (center_lat center_lon radius : ℚ)
    (limit : Nat) (db : List Row) : List LocationResponse :=
  (((geofenceCandidates query field center_lat center_lon radius db).insertionSort
      distLE).take limit).filterMap
    (fun p => rowToResponse p.1 (some p.2) (some (decide (p.2 ≤ radius))))

/-- Shallow embedding of `search_locations` (`location_api.py` lines
406-558).  The `center_lat/center_lon/radius_meters` triple is a geofence
only when all three are present, exactly as in the Python `is not None`
conjunction.  The non-geofence branch with a non-empty query and an empty
field interpolates `None` as a column name, a `sqlite3` error surfaced as an
HTTP 500, modelled as `databaseError`. -/
def search_locations (db : List Row) (query field : String) (limit : Nat)
    (center_lat center_lon radius_meters : Option ℚ) :
    Except SearchError (List LocationResponse) :=
  if toLowerStr field ≠ "" ∧ toLowerStr field ∉ tableColumns.map toLowerStr then
    .error (.unknownField field)
  else
    match center_lat, center_lon, radius_meters with
    | some clat, some clon, some rad =>
        if rad = 0 then .ok []
        else .ok (geoPipeline query field clat clon rad limit db)
    | _, _, _ =>
        if query ≠ "" then
          if toLowerStr field == "postcode" then
            .ok (((db.filter (fun r => optLikeStarts query r.postcode)).take
                limit).filterMap (fun r => rowToResponse r none none))
          else if field = "" then
            .error .databaseError
          else
            .ok (((db.filter (fun r => substringFilter query field r)).take
                limit).filterMap (fun r => rowToResponse r none none))
        else
          .ok ((db.take limit).filterMap (fun r => rowToResponse r none none))

/-! ### The postcode cache (`get_location_from_cache` under `lru_cache`) -/

/-- The `lru_cache` capacity (`CACHE_SIZE = 1000`). -/
def CACHE_SIZE : Nat := 1000

/-- State of the `functools.lru_cache` around `get_location_from_cache`: an
association list of cached results, most recently used first.  A cached
`none` value is a memoized negative ("not found") lookup. -/
abbrev CacheState := List (String × Option LocationResponse)

/-- The body of `get_location_from_cache` without its cache decorator: the
`SELECT ... WHERE Postcode = ? LIMIT 1` query plus response construction.
The outer `Option` is `none` when the body raises (the code applies
`float(...)` to the fetched coordinates without a `NULL` guard, so a matched
row with a `NULL` coordinate or `NULL` postcode raises instead of
returning); `some none` is a completed "not found" lookup. -/
def get_location_uncached (db : List Row) (postcode : String) :
    Option (Option LocationResponse) :=
  match db.find? (fun r => r.postcode == some postcode) with
  | none => some none
  | some r =>
      match r.postcode, r.latitude, r.longitude with
      | some pc, some la, some lo =>
          some (some { postcode := pc
                       latitude := la
                       longitude := lo
                       town := r.town.getD ""
                       county := r.county.getD ""
                       street1 := r.street1.getD ""
                       street2 := r.street2.getD ""
                       district1 := r.district1.getD ""
                       district2 := r.district2.getD "" })
      | _, _, _ => none

/-- One call of the `lru_cache`-wrapped `get_location_from_cache`.  Returns
the call's outcome, the new cache state, and the number of store queries the
call performed (0 on a hit, 1 on a miss).  A hit moves the entry to the
most-recent position; a completed miss inserts at the most-recent position
and trims to capacity (evicting the least recently used); a raising call
caches nothing. -/
def get_location_from_cache (db : List Row) (cache : CacheState)
    (postcode : String) :
    Option (Option LocationResponse) × CacheState × Nat :=
  match cache.lookup postcode with
  | some v => (some v, (postcode, v) :: cache.eraseP (fun e => e.1 == postcode), 0)
  | none =>
      match get_location_uncached db postcode with
      | none => (none, cache, 1)
      | some v => (some v, ((postcode, v) :: cache).take CACHE_SIZE, 1)

/-- `n` consecutive calls of the cached lookup for the same postcode:
collects the outcomes, threads the cache state, and sums the store-query
counts. -/
def get_location_iter (db : List Row) : CacheState → String → Nat →
    List (Option (Option LocationResponse)) × CacheState × Nat
  | c, _, 0 => ([], c, 0)
  | c, p, n + 1 =>
      let step := get_location_from_cache db c p
      let rest := get_location_iter db step.2.1 p n
      (step.1 :: rest.1, rest.2.1, step.2.2 + rest.2.2)

/-! ### Endpoint handlers -/

/-- The shared `SearchQuery` pydantic validators plus the FastAPI `Query`
range constraints: limit in 1..5000, optional latitude in -90..90, optional
longitude in -180..180, optional radius in 0..50000. -/
def validateSearchParams (limit : Nat) (center_lat center_lon radius_meters : Option ℚ) :
    Bool :=
  decide (1 ≤ limit) && decide (limit ≤ 5000) &&
  center_lat.all (fun v => decide (-90 ≤ v) && decide (v ≤ 90)) &&
  center_lon.all (fun v => decide (-180 ≤ v) && decide (v ≤ 180)) &&
  radius_meters.all (fun v => decide (0 ≤ v) && decide (v ≤ 50000))

/-- Python whitespace class `\s` membership for the postcode pattern. -/
def isPySpace (c : Char) : Bool :=
  c == ' ' || c == '\t' || c == '\n' || c == '\r' || c == '\x0b' || c == '\x0c'

/-- Characters admitted by `PostcodeQuery.validate_postcode` after
uppercasing: the regex class `[A-Z0-9\s]`. -/
def pcQueryCharOk (c : Char) : Bool :=
  (decide ('A' ≤ c) && decide (c ≤ 'Z')) ||
  (decide ('0' ≤ c) && decide (c ≤ '9')) || isPySpace c

/-- The `PostcodeQuery.validate_postcode` pydantic validator: uppercase the
query, require it to match `^[A-Z0-9\s]+$`, and require at most 7 characters
once spaces are removed. -/
def validate_postcode_query (q : String) : Bool :=
  let u := toUpperStr q
  !u.data.isEmpty && u.data.all pcQueryCharOk &&
    decide ((stripSpaces u).data.length ≤ 7)

/-- `sanitize_input`: strip the characters `;`, `'`, `"` and `\`
(`re.sub(r'[;\'\"\\]', '', value)`). -/
def sanitize_input (s : String) : String :=
  String.mk (s.data.filter
    (fun c => !(c == ';' || c == '\'' || c == '"' || c == '\\')))

/-- Python `str.strip()`: drop leading and trailing whitespace. -/
def pyStrip (s : String) : String :=
  String.mk (((s.data.dropWhile isPySpace).reverse.dropWhile isPySpace).reverse)

/-- Python truthiness of the optional `radius_meters` parameter as used in
`within_radius = [...] if radius_meters else locations`: `None` and `0.0`
are falsy. -/
def radiusTruthy : Option ℚ → Bool
  | none => false
  | some r => decide (r ≠ 0)

/-- Shallow embedding of the `/search/spatial` handler `search_by_distance`
(`location_api.py` lines 786-871): validate, search with an empty query and
field, and count the rows whose `within_geofence` flag is truthy. -/
def search_by_distance (db : List Row) (center_lat center_lon radius_meters : ℚ)
    (limit : Nat) : Except ApiError LocationListResponse :=
  if !validateSearchParams limit (some center_lat) (some center_lon)
      (some radius_meters) then
    .error (.validation "spatial search parameters out of range")
  else
    match search_locations db "" "" limit (some center_lat) (some center_lon)
        (some radius_meters) with
    | .error e => .error (mapSearchError e)
    | .ok locations =>
        .ok { locations := locations
              total_count := locations.length
              within_radius_count :=
                some (locations.filter (fun l => l.within_geofence.getD false)).length }

/-- Shallow embedding of the `/search/postcode/{query}` handler
`search_by_postcode` (`location_api.py` lines 879-971): FastAPI path length
constraint, `PostcodeQuery` validation, sanitization, search on the
`Postcode` field, and the count bookkeeping guarded by the truthiness of the
raw `radius_meters` parameter. -/
def search_by_postcode (db : List Row) (query : String) (limit : Nat)
    (center_lat center_lon radius_meters : Option ℚ) :
    Except ApiError LocationListResponse :=
  if ¬ (1 ≤ query.length ∧ query.length ≤ 8) then
    .error (.validation "postcode query length out of range")
  else if !validateSearchParams limit center_lat center_lon radius_meters then
    .error (.validation "search parameters out of range")
  else if !validate_postcode_query query then
    .error (.validation "postcode query failed validation")
  else
    let safe := pyStrip (sanitize_input (toUpperStr query))
    match search_locations db safe "Postcode" limit center_lat center_lon
        radius_meters with
    | .error e => .error (mapSearchError e)
    | .ok locations =>
        let within :=
          if radiusTruthy radius_meters then
            locations.filter (fun l => l.within_geofence.getD false)
          else locations
        .ok { locations := locations
              total_count := locations.length
              within_radius_count := some within.length }

/-! ### The Haversine fallback of `csv_to_sqlite.calculate_distances` -/

/-- Degrees to radians, the SQL `RADIANS` function. -/
noncomputable def radians (x : ℝ) : ℝ := x * Real.pi / 180

/-- The Haversine great-circle distance computed by the SpatiaLite-less
fallback branch of `calculate_distances` (`csv_to_sqlite.py` lines 632-662):
`earth_radius * 2 * ASIN(SQRT(SIN²(Δφ/2) + COS(φ₁)·COS(φ₂)·SIN²(Δλ/2)))`
with the earth radius constant `6371000` meters. -/
noncomputable def haversineDistance (center_lat center_lon lat lon : ℝ) : ℝ :=
  6371000 * (2 * Real.arcsin (Real.sqrt (
    Real.sin ((radians lat - radians center_lat) / 2) ^ 2 +
    Real.cos (radians center_lat) * Real.cos (radians lat) *
    Real.sin ((radians lon - radians center_lon) / 2) ^ 2)))

/-! ### Helper lemmas -/

instance instDecEqExcept {ε α : Type} [DecidableEq ε] [DecidableEq α] :
    DecidableEq (Except ε α) := fun a b =>
  match a, b with
  | .error e, .error f =>
      if h : e = f then isTrue (h ▸ rfl) else isFalse (fun H => h (Except.error.inj H))
  | .error _, .ok _ => isFalse (fun H => Except.noConfusion H)
  | .ok _, .error _ => isFalse (fun H => Except.noConfusion H)
  | .ok x, .ok y =>
      if h : x = y then isTrue (h ▸ rfl) else isFalse (fun H => h (Except.ok.inj H))

/-- Inverting a successful row conversion recovers every field of the
response, in particular the `NULL` coercions. -/
theorem rowToResponse_inv {r : Row} {d : Option ℚ} {f : Option Bool}
    {resp : LocationResponse} (h : rowToResponse r d f = some resp) :
    r.postcode = some resp.postcode ∧ resp.latitude = r.latitude.getD 0 ∧
    resp.longitude = r.longitude.getD 0 ∧ resp.within_geofence = f ∧
    resp.distance = d := by
  cases hpc : r.postcode with
  | none => unfold rowToResponse at h; rw [hpc] at h; cases h
  | some pc =>
      unfold rowToResponse at h; rw [hpc] at h
      simp only [Option.some.injEq] at h
      subst h
      refine ⟨?_, rfl, rfl, rfl, rfl⟩
      simp [hpc]

/-- Definitional unfolding of `search_locations` when the geofence triple is
fully present. -/
theorem search_locations_geo_eq (db : List Row) (q field : String) (limit : Nat)
    (clat clon rad : ℚ) :
    search_locations db q field limit (some clat) (some clon) (some rad) =
      if toLowerStr field ≠ "" ∧ toLowerStr field ∉ tableColumns.map toLowerStr
      then .error (.unknownField field)
      else if rad = 0 then .ok []
      else .ok (geoPipeline q field clat clon rad limit db) := rfl

/-- Definitional unfolding of `search_locations` when no geofence parameter
is given. -/
theorem search_locations_plain_eq (db : List Row) (q field : String) (limit : Nat) :
    search_locations db q field limit none none none =
      if toLowerStr field ≠ "" ∧ toLowerStr field ∉ tableColumns.map toLowerStr
      then .error (.unknownField field)
      else if q ≠ "" then
        if toLowerStr field == "postcode" then
          .ok (((db.filter (fun r => optLikeStarts q r.postcode)).take
              limit).filterMap (fun r => rowToResponse r none none))
        else if field = "" then .error .databaseError
        else
          .ok (((db.filter (fun r => substringFilter q field r)).take
              limit).filterMap (fun r => rowToResponse r none none))
      else .ok ((db.take limit).filterMap (fun r => rowToResponse r none none)) := rfl

/-- A successful geofence search returns either the short-circuit empty list
or the geofence pipeline output. -/
theorem geofence_ok_inv {db : List Row} {q field : String} {limit : Nat}
    {clat clon rad : ℚ} {rows : List LocationResponse}
    (h : search_locations db q field limit (some clat) (some clon) (some rad) =
      .ok rows) :
    rows = [] ∨ rows = geoPipeline q field clat clon rad limit db := by
  rw [search_locations_geo_eq] at h
  by_cases hf : toLowerStr field ≠ "" ∧ toLowerStr field ∉ tableColumns.map toLowerStr
  · rw [if_pos hf] at h; cases h
  · rw [if_neg hf] at h
    by_cases hr : rad = 0
    · rw [if_pos hr] at h
      exact Or.inl (Except.ok.inj h).symm
    · rw [if_neg hr] at h
      exact Or.inr (Except.ok.inj h).symm

/-- Inverting membership in the geofence pipeline: the response comes from a
database row with non-`NULL` coordinates that passed the base filter and the
squared-degree radius filter. -/
theorem mem_geoPipeline_inv {db : List Row} {q field : String} {limit : Nat}
    {clat clon rad : ℚ} {resp : LocationResponse}
    (hm : resp ∈ geoPipeline q field clat clon rad limit db) :
    ∃ r la lo, r ∈ db ∧ r.latitude = some la ∧ r.longitude = some lo ∧
      baseFilter q field r = true ∧ approxDistance clat clon la lo ≤ rad ∧
      rowToResponse r (some (approxDistance clat clon la lo))
        (some (decide (approxDistance clat clon la lo ≤ rad))) = some resp := by
  unfold geoPipeline at hm
  obtain ⟨p, hp, hconv⟩ := List.mem_filterMap.mp hm
  have hp2 : p ∈ geofenceCandidates q field clat clon rad db :=
    (List.perm_insertionSort distLE _).mem_iff.mp (List.mem_of_mem_take hp)
  obtain ⟨r, hr, hfr⟩ := List.mem_filterMap.mp hp2
  cases hla : r.latitude with
  | none => unfold geoDistance at hfr; rw [hla] at hfr; cases hfr
  | some la =>
      cases hlo : r.longitude with
      | none =>
          unfold geoDistance at hfr; rw [hla, hlo] at hfr; cases hfr
      | some lo =>
          unfold geoDistance at hfr; rw [hla, hlo] at hfr
          dsimp only at hfr
          by_cases hc : baseFilter q field r &&
              decide (approxDistance clat clon la lo ≤ rad)
          · rw [if_pos hc] at hfr
            rw [Bool.and_eq_true] at hc
            obtain ⟨hb, hd⟩ := hc
            have hdle : approxDistance clat clon la lo ≤ rad := of_decide_eq_true hd
            cases hfr
            exact ⟨r, la, lo, hr, hla, hlo, hb, hdle, hconv⟩
          · rw [if_neg hc] at hfr; cases hfr

/-- Every row a successful geofence search returns carries the flag
`within_geofence = some true` (the radius is already a hard `WHERE`
filter with the same expression as the `CASE`). -/
theorem geofence_flags_true {db : List Row} {q field : String} {limit : Nat}
    {clat clon rad : ℚ} {rows : List LocationResponse}
    (h : search_locations db q field limit (some clat) (some clon) (some rad) =
      .ok rows) :
    ∀ resp ∈ rows, resp.within_geofence = some true := by
  intro resp hm
  rcases geofence_ok_inv h with rfl | rfl
  · cases hm
  · obtain ⟨r, la, lo, _, _, _, _, hle, hconv⟩ := mem_geoPipeline_inv hm
    have hfl := (rowToResponse_inv hconv).2.2.2.1
    rw [hfl, decide_eq_true hle]

/-- Transport of pairwise order through `filterMap`. -/
theorem pairwise_filterMap_of_pairwise {α β : Type} {R : α → α → Prop}
    {S : β → β → Prop} (f : α → Option β)
    (hRS : ∀ a b x y, R a b → f a = some x → f b = some y → S x y) :
    ∀ {l : List α}, l.Pairwise R → (l.filterMap f).Pairwise S := by
  intro l hl
  induction hl with
  | nil => simp
  | @cons a l hhead _ ih =>
      cases hfa : f a with
      | none => rw [List.filterMap_cons, hfa]; exact ih
      | some x =>
          rw [List.filterMap_cons, hfa]
          refine List.Pairwise.cons ?_ ih
          intro y hy
          obtain ⟨b, hb, hfb⟩ := List.mem_filterMap.mp hy
          exact hRS a b x y (hhead b hb) hfa hfb

/-- Inverting the non-geofence postcode search: with an empty query it is
the unfiltered prefix of the table, otherwise the anchored
`LIKE 'query%'` filter. -/
theorem postcode_plain_inv {db : List Row} {q : String} {limit : Nat}
    {rows : List LocationResponse}
    (h : search_locations db q "Postcode" limit none none none = .ok rows) :
    (q = "" ∧ rows = (db.take limit).filterMap (fun r => rowToResponse r none none)) ∨
    (q ≠ "" ∧ rows = ((db.filter (fun r => optLikeStarts q r.postcode)).take
        limit).filterMap (fun r => rowToResponse r none none)) := by
  rw [search_locations_plain_eq, if_neg (by decide)] at h
  by_cases hq : q = ""
  · rw [if_neg (by simp [hq])] at h
    exact Or.inl ⟨hq, (Except.ok.inj h).symm⟩
  · rw [if_pos hq, if_pos (by decide)] at h
    exact Or.inr ⟨hq, (Except.ok.inj h).symm⟩

/-- Inverting the non-geofence town search with a non-empty query: the
three-way substring filter over `Town`, `District1`, `District2`. -/
theorem town_plain_inv {db : List Row} {q : String} {limit : Nat}
    {rows : List LocationResponse} (hq : q ≠ "")
    (h : search_locations db q "Town" limit none none none = .ok rows) :
    rows = ((db.filter (fun r => substringFilter q "Town" r)).take
      limit).filterMap (fun r => rowToResponse r none none) := by
  rw [search_locations_plain_eq, if_neg (by decide), if_pos hq,
    if_neg (by decide), if_neg (by decide)] at h
  exact (Except.ok.inj h).symm

/-- An empty character list is a prefix of every character list. -/
theorem isPrefixOf_nil_pat (l : List Char) : ([] : List Char).isPrefixOf l = true := by
  cases l <;> rfl

/-- An empty needle is a prefix of every string (SQL `LIKE '%'`). -/
theorem likeStarts_empty (s : String) : likeStarts "" s = true := by
  show ((toUpperStr "").data).isPrefixOf (toUpperStr s).data = true
  have h : (toUpperStr "").data = ([] : List Char) := by decide
  rw [h, isPrefixOf_nil_pat]

/-- An empty needle is contained in every string (SQL `LIKE '%%'`). -/
theorem likeContains_empty (s : String) : likeContains "" s = true := by
  show containsRun [] (toUpperStr s).data = true
  induction (toUpperStr s).data with
  | nil => rfl
  | cons c cs _ => rfl

/-- Looking up the key just inserted at the most-recent position hits. -/
theorem lookup_cons_self (v : Option LocationResponse) (t : CacheState) (p : String) :
    ((p, v) :: t).lookup p = some v := by
  simp [List.lookup]

/-- Once the cache holds `p`, every further consecutive `get(p)` is a hit:
no store query runs and the cached value is returned unchanged. -/
theorem get_location_iter_hits (db : List Row) (p : String)
    (v : Option LocationResponse) :
    ∀ (n : Nat) (c : CacheState), c.lookup p = some v →
      (get_location_iter db c p n).1 = List.replicate n (some v) ∧
      (get_location_iter db c p n).2.2 = 0 := by
  intro n
  induction n with
  | zero => intro c _; exact ⟨rfl, rfl⟩
  | succ m ih =>
      intro c hc
      have hstep : get_location_from_cache db c p =
          (some v, (p, v) :: c.eraseP (fun e => e.1 == p), 0) := by
        unfold get_location_from_cache; rw [hc]
      have ihm := ih ((p, v) :: c.eraseP (fun e => e.1 == p)) (lookup_cons_self v _ p)
      refine ⟨?_, ?_⟩ <;> simp only [get_location_iter, hstep] <;>
        simp [ihm.1, ihm.2, List.replicate_succ]

/-! ### Concrete data used by witnesses and counterexamples -/

/-- A demonstration store row (the `SW1A 1AA` scenario of the spec, with the
latitude offset `1/1000` degree from the demo geofence center). -/
def demoRow : Row :=
  { stem := some "S", postcode := some "SW1A 1AA", latitude := some (1/1000),
    longitude := some 0, town := some "LONDON", county := none,
    street1 := some "DOWNING STREET", street2 := none,
    district1 := some "WESTMINSTER", district2 := none }

/-- A one-row demonstration store. -/
def demoDb : List Row := [demoRow]

/-- The response the geofence search over `demoDb` centered at the origin
returns: distance `(1/1000)² · 111319.9 = 1113199/10⁷`. -/
def demoGeoResp : LocationResponse :=
  { postcode := "SW1A 1AA", latitude := 1/1000, longitude := 0,
    town := "LONDON", county := "", street1 := "DOWNING STREET", street2 := "",
    district1 := "WESTMINSTER", district2 := "",
    within_geofence := some true, distance := some (1113199/10000000) }

/-- The response the plain (non-geofence) postcode search over `demoDb`
returns. -/
def demoPlainResp : LocationResponse :=
  { postcode := "SW1A 1AA", latitude := 1/1000, longitude := 0,
    town := "LONDON", county := "", street1 := "DOWNING STREET", street2 := "",
    district1 := "WESTMINSTER", district2 := "",
    within_geofence := none, distance := none }

/-! ### Claim theorems -/

/-- C2: for any normalized postcode `P` not yet cached, calling the cached
exact lookup `N ≥ 1` consecutive times performs exactly one underlying store
query and returns `N` identical values; this includes the case where `P` is
not found, because the negative result is cached.  The hypothesis that the
uncached resolution completes (`isSome`) holds whenever the matched row, if
any, has non-`NULL` postcode and coordinates — the code applies `float(...)`
to the fetched coordinates without a `NULL` guard. -/
theorem C2_cache_idempotence (db : List Row) (cache : CacheState) (p : String)
    (n : Nat) (hn : 1 ≤ n) (hc : cache.lookup p = none)
    (hres : (get_location_uncached db p).isSome = true) :
    (get_location_iter db cache p n).1 =
      List.replicate n (get_location_uncached db p) ∧
    (get_location_iter db cache p n).2.2 = 1 := by
  obtain ⟨v, hv⟩ := Option.isSome_iff_exists.mp hres
  obtain ⟨m, rfl⟩ : ∃ m, n = m + 1 := ⟨n - 1, by omega⟩
  have hstep : get_location_from_cache db cache p =
      (some v, ((p, v) :: cache).take CACHE_SIZE, 1) := by
    unfold get_location_from_cache; rw [hc, hv]
  have htake : ((p, v) :: cache).take CACHE_SIZE = (p, v) :: cache.take 999 := by
    have h1000 : CACHE_SIZE = 999 + 1 := rfl
    rw [h1000, List.take_succ_cons]
  have hlk : ((p, v) :: cache.take 999).lookup p = some v := lookup_cons_self v _ p
  have ihm := get_location_iter_hits db p v m _ hlk
  rw [htake] at hstep
  refine ⟨?_, ?_⟩ <;> simp only [get_location_iter, hstep] <;>
    simp [hv, ihm.1, ihm.2, List.replicate_succ]

/-- Witness for C2 at a concrete input: the postcode `ZZ9 9ZZ` is absent from
the empty store, and three consecutive cached lookups return three identical
(negative) values with exactly one store query. -/
theorem C2_cache_idempotence_witness :
    (get_location_iter [] [] "ZZ9 9ZZ" 3).1 =
      List.replicate 3 (get_location_uncached [] "ZZ9 9ZZ") ∧
    (get_location_iter [] [] "ZZ9 9ZZ" 3).2.2 = 1 :=
  C2_cache_idempotence [] [] "ZZ9 9ZZ" 3 (by decide) (by decide) (by decide)

/-- C3: a geofence search with `radius_meters = 0` returns the empty result
sequence regardless of field filter and query string, and the spatial
endpoint then reports `total_count = 0` and `within_radius_count = 0`. -/
theorem C3_zero_radius (db : List Row) (q field : String) (limit : Nat)
    (clat clon : ℚ)
    (hf : toLowerStr field = "" ∨ toLowerStr field ∈ tableColumns.map toLowerStr)
    (h1 : -90 ≤ clat) (h2 : clat ≤ 90) (h3 : -180 ≤ clon) (h4 : clon ≤ 180)
    (h5 : 1 ≤ limit) (h6 : limit ≤ 5000) :
    search_locations db q field limit (some clat) (some clon) (some 0) = .ok [] ∧
    search_by_distance db clat clon 0 limit =
      .ok { locations := [], total_count := 0, within_radius_count := some 0 } := by
  have hcond : ¬(toLowerStr field ≠ "" ∧
      toLowerStr field ∉ tableColumns.map toLowerStr) := by
    rcases hf with hf | hf
    · intro hcon; exact hcon.1 hf
    · intro hcon; exact hcon.2 hf
  refine ⟨?_, ?_⟩
  · rw [search_locations_geo_eq, if_neg hcond, if_pos rfl]
  · have hempty : search_locations db "" "" limit (some clat) (some clon)
        (some 0) = .ok [] := by
      rw [search_locations_geo_eq, if_neg (by decide), if_pos rfl]
    have hval : validateSearchParams limit (some clat) (some clon) (some 0) =
        true := by
      simp [validateSearchParams, h1, h2, h3, h4, h5, h6]
    simp [search_by_distance, hval, hempty]

/-- Witness for C3 at a concrete input. -/
theorem C3_zero_radius_witness :
    search_locations demoDb "" "" 10 (some 0) (some 0) (some 0) = .ok [] ∧
    search_by_distance demoDb 0 0 0 10 =
      .ok { locations := [], total_count := 0, within_radius_count := some 0 } :=
  C3_zero_radius demoDb "" "" 10 0 0 (Or.inl rfl) (by norm_num) (by norm_num)
    (by norm_num) (by norm_num) (by norm_num) (by norm_num)

/-- C8: a search whose non-empty field name is not a column of the store
schema signals an unknown-field error before any row query runs (the result
is the same for every database contents), and the endpoint error translation
maps it to a client-visible validation failure naming the field, not a crash
or a generic internal error. -/
theorem C8_unknown_field (db : List Row) (q field : String) (limit : Nat)
    (center_lat center_lon radius_meters : Option ℚ)
    (h1 : toLowerStr field ≠ "")
    (h2 : toLowerStr field ∉ tableColumns.map toLowerStr) :
    search_locations db q field limit center_lat center_lon radius_meters =
      .error (.unknownField field) ∧
    mapSearchError (.unknownField field) =
      .validation ("Field " ++ field ++ " not found in database") := by
  constructor
  · unfold search_locations
    rw [if_pos ⟨h1, h2⟩]
  · rfl

/-- Witness for C8 at the spec's own scenario: field `"zipcode"`. -/
theorem C8_unknown_field_witness :
    search_locations demoDb "x" "zipcode" 10 none none none =
      .error (.unknownField "zipcode") ∧
    mapSearchError (.unknownField "zipcode") =
      .validation ("Field " ++ "zipcode" ++ " not found in database") :=
  C8_unknown_field demoDb "x" "zipcode" 10 none none none (by decide) (by decide)

/-- C1 (amended): the distance used to filter and rank geofence search
results is the squared-degree planar approximation
`((center_lon − lon)² + (center_lat − lat)²) · 111319.9` evaluated on the
row's own returned coordinates — not the Haversine great-circle distance,
which appears only in the SpatiaLite-less fallback of the ETL utility's
`calculate_distances`. -/
theorem C1_search_distance_squared_degree (db : List Row) (q field : String)
    (limit : Nat) (clat clon rad : ℚ) (rows : List LocationResponse)
    (resp : LocationResponse)
    (h : search_locations db q field limit (some clat) (some clon) (some rad) =
      .ok rows)
    (hm : resp ∈ rows) :
    resp.distance = some (approxDistance clat clon resp.latitude resp.longitude) := by
  rcases geofence_ok_inv h with rfl | rfl
  · cases hm
  · obtain ⟨r, la, lo, _, hla, hlo, _, _, hconv⟩ := mem_geoPipeline_inv hm
    obtain ⟨_, hlat, hlon, _, hd⟩ := rowToResponse_inv hconv
    rw [hd, hlat, hlon, hla, hlo]
    rfl

/-- Witness for the amended C1 at a concrete geofence search. -/
theorem C1_search_distance_squared_degree_witness :
    demoGeoResp.distance =
      some (approxDistance 0 0 demoGeoResp.latitude demoGeoResp.longitude) :=
  C1_search_distance_squared_degree demoDb "" "" 10 0 0 15000 [demoGeoResp]
    demoGeoResp (by decide) (by decide)

/-- A store with one row one tenth of a degree of latitude from the origin. -/
def c1db : List Row :=
  [{ postcode := some "AA1 1AA", latitude := some (1/10), longitude := some 0 }]

/-- The response the geofence search over `c1db` centered at the origin
returns: distance `(1/10)² · 111319.9 = 1113199/1000` "meters". -/
def c1resp : LocationResponse :=
  { postcode := "AA1 1AA", latitude := 1/10, longitude := 0,
    within_geofence := some true, distance := some (1113199/1000) }

/-- Evaluation of the Haversine fallback at the counterexample coordinates:
center the origin, point one tenth of a degree of latitude away. -/
theorem haversine_tenth_eq :
    haversineDistance 0 0 (1/10) 0 = 6371000 * (2 * (Real.pi / 3600)) := by
  unfold haversineDistance radians
  have h0 : (0:ℝ) * Real.pi / 180 = 0 := by ring
  rw [h0]
  have hx : ((1:ℝ)/10 * Real.pi / 180 - 0) / 2 = Real.pi / 3600 := by ring
  have hz : ((0:ℝ) - 0) / 2 = 0 := by ring
  rw [hx, hz, Real.sin_zero, Real.cos_zero]
  rw [show ((0:ℝ) ^ 2) = 0 by norm_num, mul_zero, add_zero]
  have hpi := Real.pi_pos
  rw [Real.sqrt_sq (Real.sin_nonneg_of_nonneg_of_le_pi (by positivity)
        (by linarith))]
  rw [Real.arcsin_sin (by linarith) (by linarith)]

/-- The squared-degree distance the search reports for the counterexample
row is strictly smaller than the Haversine distance of the same pair. -/
theorem c1_distance_lt :
    ((1113199/1000 : ℚ) : ℝ) < haversineDistance 0 0 (1/10) 0 := by
  rw [haversine_tenth_eq]
  have hπ := Real.pi_gt_three
  push_cast
  linarith

/-- C1 counterexample: at center `(0, 0)` over a store holding the single
point `(0.1, 0)`, the geofence search (SpatiaLite absent in this code path —
the branch is unconditional) returns the row with distance
`1113199/1000 ≈ 1113.2`, while the Haversine great-circle distance of the
same pair with `R = 6371000` is `6371000·π/1800 ≈ 11119.5`; the distance
used to filter and rank is therefore not the Haversine distance. -/
theorem C1_counterexample :
    search_locations c1db "" "" 10 (some 0) (some 0) (some 15000) =
      .ok [c1resp] ∧
    c1resp.distance = some (1113199/1000) ∧
    ((1113199/1000 : ℚ) : ℝ) ≠ haversineDistance 0 0 (1/10) 0 :=
  ⟨by decide, by decide, ne_of_lt c1_distance_lt⟩

/-- C4: every row returned by a geofence-aware search carries a distance `d`
with `within_geofence = some true` exactly when `d ≤ radius_meters`. -/
theorem C4_geofence_partition (db : List Row) (q field : String) (limit : Nat)
    (clat clon rad : ℚ) (rows : List LocationResponse) (resp : LocationResponse)
    (h : search_locations db q field limit (some clat) (some clon) (some rad) =
      .ok rows)
    (hm : resp ∈ rows) :
    ∃ d, resp.distance = some d ∧ (resp.within_geofence = some true ↔ d ≤ rad) := by
  rcases geofence_ok_inv h with rfl | rfl
  · cases hm
  · obtain ⟨r, la, lo, _, _, _, _, _, hconv⟩ := mem_geoPipeline_inv hm
    obtain ⟨_, _, _, hfl, hd⟩ := rowToResponse_inv hconv
    refine ⟨approxDistance clat clon la lo, hd, ?_⟩
    rw [hfl]
    constructor
    · intro hsome
      exact of_decide_eq_true (Option.some.inj hsome)
    · intro hle2
      rw [decide_eq_true hle2]

/-- Witness for C4 at a concrete geofence search. -/
theorem C4_geofence_partition_witness :
    ∃ d, demoGeoResp.distance = some d ∧
      (demoGeoResp.within_geofence = some true ↔ d ≤ 15000) :=
  C4_geofence_partition demoDb "" "" 10 0 0 15000 [demoGeoResp] demoGeoResp
    (by decide) (by decide)

/-- C5 (amended): the rows of a geofence search are returned in
non-decreasing distance order; rows with equal distance keep the underlying
store's order — the query has no postcode tie-break. -/
theorem C5_sorted_by_distance (db : List Row) (q field : String) (limit : Nat)
    (clat clon rad : ℚ) (rows : List LocationResponse)
    (h : search_locations db q field limit (some clat) (some clon) (some rad) =
      .ok rows) :
    rows.Pairwise (fun a b => a.distance.getD 0 ≤ b.distance.getD 0) := by
  rcases geofence_ok_inv h with rfl | rfl
  · exact List.Pairwise.nil
  · unfold geoPipeline
    have hsorted :
        ((geofenceCandidates q field clat clon rad db).insertionSort
          distLE).Pairwise distLE :=
      List.sorted_insertionSort distLE _
    have htake := List.Pairwise.sublist (List.take_sublist limit _) hsorted
    refine pairwise_filterMap_of_pairwise _ ?_ htake
    intro a b x y hab hfa hfb
    obtain ⟨_, _, _, _, hda⟩ := rowToResponse_inv hfa
    obtain ⟨_, _, _, _, hdb⟩ := rowToResponse_inv hfb
    rw [hda, hdb]
    exact hab

/-- Witness for the amended C5 at a concrete geofence search. -/
theorem C5_sorted_by_distance_witness :
    ([demoGeoResp] : List LocationResponse).Pairwise
      (fun a b => a.distance.getD 0 ≤ b.distance.getD 0) :=
  C5_sorted_by_distance demoDb "" "" 10 0 0 15000 [demoGeoResp] (by decide)

/-- A store with two rows at identical coordinates whose postcodes are in
reverse lexicographic order. -/
def c5db : List Row :=
  [ { postcode := some "ZZ9 9ZZ", latitude := some 0, longitude := some 0 },
    { postcode := some "AA1 1AA", latitude := some 0, longitude := some 0 } ]

/-- The first returned row of the C5 counterexample search. -/
def c5zResp : LocationResponse :=
  { postcode := "ZZ9 9ZZ", latitude := 0, longitude := 0,
    within_geofence := some true, distance := some 0 }

/-- The second returned row of the C5 counterexample search. -/
def c5aResp : LocationResponse :=
  { postcode := "AA1 1AA", latitude := 0, longitude := 0,
    within_geofence := some true, distance := some 0 }

/-- C5 counterexample: two rows at the same distance 0 from the center come
back in store order `ZZ9 9ZZ, AA1 1AA` even though `AA1 1AA` sorts strictly
before `ZZ9 9ZZ` — equal-distance rows are not tie-broken by postcode. -/
theorem C5_counterexample :
    search_locations c5db "" "" 10 (some 0) (some 0) (some 100) =
      .ok [c5zResp, c5aResp] ∧
    c5zResp.distance = c5aResp.distance ∧
    c5zResp.postcode = "ZZ9 9ZZ" ∧ c5aResp.postcode = "AA1 1AA" ∧
    c5aResp.postcode.data < c5zResp.postcode.data :=
  ⟨by decide, by decide, rfl, rfl, by decide⟩

/-- Inverting a successful `/search/postcode/{query}` call: validation
passed, the inner search succeeded on the sanitized uppercased query, and
the response records the returned rows with the endpoint's count
bookkeeping. -/
theorem search_by_postcode_ok_inv {db : List Row} {q : String} {limit : Nat}
    {clat clon rad : Option ℚ} {lr : LocationListResponse}
    (h : search_by_postcode db q limit clat clon rad = .ok lr) :
    ∃ locations, search_locations db (pyStrip (sanitize_input (toUpperStr q)))
        "Postcode" limit clat clon rad = .ok locations ∧
      lr = { locations := locations, total_count := locations.length,
             within_radius_count := some ((if radiusTruthy rad then
               locations.filter (fun l => l.within_geofence.getD false)
               else locations).length) } := by
  unfold search_by_postcode at h
  split at h
  · simp at h
  · split at h
    · simp at h
    · split at h
      · simp at h
      · split at h
        · rename_i hrt
          dsimp only at h
          split at h
          · simp at h
          · rename_i locations heq
            refine ⟨locations, heq, ?_⟩
            rw [if_pos hrt]
            exact (Except.ok.inj h).symm
        · rename_i hrt
          dsimp only at h
          split at h
          · simp at h
          · rename_i locations heq
            refine ⟨locations, heq, ?_⟩
            rw [if_neg hrt]
            exact (Except.ok.inj h).symm

/-- C9: with a positive radius, the radius is a hard filter — every returned
row has `within_geofence = some true` and a distance within the radius, and
on both the spatial endpoint and the postcode endpoint the within-radius
count therefore equals the total count. -/
theorem C9_radius_hard_filter (db : List Row) (q field : String) (limit : Nat)
    (clat clon rad : ℚ) (rows : List LocationResponse) (resp : LocationResponse)
    (lr lr' : LocationListResponse) (hr : 0 < rad) :
    (search_locations db q field limit (some clat) (some clon) (some rad) =
        .ok rows → resp ∈ rows →
      resp.within_geofence = some true ∧ ∃ d, resp.distance = some d ∧ d ≤ rad) ∧
    (search_by_distance db clat clon rad limit = .ok lr →
      lr.within_radius_count = some lr.total_count) ∧
    (search_by_postcode db q limit (some clat) (some clon) (some rad) = .ok lr' →
      lr'.within_radius_count = some lr'.total_count) := by
  refine ⟨?_, ?_, ?_⟩
  · intro h hm
    refine ⟨geofence_flags_true h resp hm, ?_⟩
    rcases geofence_ok_inv h with rfl | rfl
    · cases hm
    · obtain ⟨r, la, lo, _, _, _, _, hle, hconv⟩ := mem_geoPipeline_inv hm
      obtain ⟨_, _, _, _, hd⟩ := rowToResponse_inv hconv
      exact ⟨approxDistance clat clon la lo, hd, hle⟩
  · intro h
    unfold search_by_distance at h
    split at h
    · simp at h
    · split at h
      · simp at h
      · rename_i locations heq
        have hlr := (Except.ok.inj h).symm
        subst hlr
        have hall : ∀ l ∈ locations, (fun l => l.within_geofence.getD false) l =
            true := by
          intro l hl
          show l.within_geofence.getD false = true
          rw [geofence_flags_true heq l hl]
          rfl
        dsimp only
        rw [List.filter_eq_self.mpr hall]
  · intro h
    obtain ⟨locations, heq, hlr⟩ := search_by_postcode_ok_inv h
    subst hlr
    have hall : ∀ l ∈ locations, (fun l => l.within_geofence.getD false) l =
        true := by
      intro l hl
      show l.within_geofence.getD false = true
      rw [geofence_flags_true heq l hl]
      rfl
    have ht : radiusTruthy (some rad) = true := decide_eq_true hr.ne'
    dsimp only
    rw [if_pos ht, List.filter_eq_self.mpr hall]

/-- The list response the spatial endpoint returns over `demoDb` with the
demo geofence. -/
def demoListResp : LocationListResponse :=
  { locations := [demoGeoResp], total_count := 1, within_radius_count := some 1 }

/-- An empty placeholder list response. -/
def emptyListResp : LocationListResponse :=
  { locations := [], total_count := 0, within_radius_count := none }

/-- Witness for C9 at a concrete geofence search and the spatial endpoint. -/
theorem C9_radius_hard_filter_witness :
    (demoGeoResp.within_geofence = some true ∧
      ∃ d, demoGeoResp.distance = some d ∧ d ≤ 15000) ∧
    demoListResp.within_radius_count = some demoListResp.total_count :=
  ⟨(C9_radius_hard_filter demoDb "" "" 10 0 0 15000 [demoGeoResp] demoGeoResp
      emptyListResp emptyListResp (by norm_num)).1 (by decide) (by decide),
   (C9_radius_hard_filter demoDb "" "" 10 0 0 15000 [demoGeoResp] demoGeoResp
      demoListResp emptyListResp (by norm_num)).2.1 (by decide)⟩

/-- C6 (amended): without a geofence the postcode-field base filter is an
anchored case-insensitive prefix match (`LIKE 'query%'`); with a geofence
the same field filter is a case-insensitive substring match
(`LIKE '%query%'`), so a record whose postcode merely contains the query in
the middle is returned there. -/
theorem C6_postcode_filter (db : List Row) (q : String) (limit : Nat) :
    (∀ rows resp, search_locations db q "Postcode" limit none none none =
        .ok rows → resp ∈ rows → likeStarts q resp.postcode = true) ∧
    (∀ clat clon rad rows resp,
      search_locations db q "Postcode" limit (some clat) (some clon) (some rad) =
        .ok rows → resp ∈ rows → likeContains q resp.postcode = true) := by
  constructor
  · intro rows resp h hm
    rcases postcode_plain_inv h with ⟨hq, rfl⟩ | ⟨hq, rfl⟩
    · subst hq
      exact likeStarts_empty resp.postcode
    · obtain ⟨r, hrt, hconv⟩ := List.mem_filterMap.mp hm
      have hrf := List.mem_filter.mp (List.mem_of_mem_take hrt)
      obtain ⟨hpc, _, _, _, _⟩ := rowToResponse_inv hconv
      have hst := hrf.2
      rw [hpc] at hst
      exact hst
  · intro clat clon rad rows resp h hm
    rcases geofence_ok_inv h with rfl | rfl
    · cases hm
    · obtain ⟨r, la, lo, _, _, _, hbf, _, hconv⟩ := mem_geoPipeline_inv hm
      obtain ⟨hpc, _, _, _, _⟩ := rowToResponse_inv hconv
      by_cases hq : q = ""
      · subst hq
        exact likeContains_empty resp.postcode
      · unfold baseFilter at hbf
        rw [if_pos ⟨hq, by decide⟩, if_pos (by decide)] at hbf
        rw [hpc] at hbf
        exact hbf

/-- Witness for the amended C6 at concrete searches. -/
theorem C6_postcode_filter_witness :
    likeStarts "SW1A" demoPlainResp.postcode = true ∧
    likeContains "SW1A" demoGeoResp.postcode = true :=
  ⟨(C6_postcode_filter demoDb "SW1A" 10).1 [demoPlainResp] demoPlainResp
      (by decide) (by decide),
   (C6_postcode_filter demoDb "SW1A" 10).2 0 0 15000 [demoGeoResp] demoGeoResp
      (by decide) (by decide)⟩

/-- A store with one row whose postcode contains `B1` strictly in the
middle. -/
def c6db : List Row :=
  [{ postcode := some "AB1 2CD", latitude := some 0, longitude := some 0 }]

/-- The response of the geofence postcode search for `B1` over `c6db`. -/
def c6resp : LocationResponse :=
  { postcode := "AB1 2CD", latitude := 0, longitude := 0,
    within_geofence := some true, distance := some 0 }

/-- C6 counterexample: under a geofence, the postcode query `B1` returns the
record `AB1 2CD`, which contains `B1` only in the middle and does not start
with it — the geofence postcode filter is a substring match, not an anchored
prefix match. -/
theorem C6_counterexample :
    search_locations c6db "B1" "Postcode" 10 (some 0) (some 0) (some 100) =
      .ok [c6resp] ∧
    c6resp.postcode = "AB1 2CD" ∧
    likeStarts "B1" "AB1 2CD" = false :=
  ⟨by decide, rfl, by decide⟩

/-- C7 (amended): `total_count` always equals the number of returned
(already limited) rows.  `within_radius_count` equals the number of rows
whose `within_geofence` flag is truthy on the spatial endpoint
unconditionally, and on the postcode endpoint only when the raw
`radius_meters` parameter is present and nonzero; when `radius_meters` is
absent or zero the postcode endpoint sets `within_radius_count` to the full
returned row count (`total_count`), not to the number of flag-true rows. -/
theorem C7_count_bookkeeping :
    (∀ (db : List Row) (clat clon rad : ℚ) (limit : Nat)
      (lr : LocationListResponse),
      search_by_distance db clat clon rad limit = .ok lr →
      lr.total_count = lr.locations.length ∧
      lr.within_radius_count =
        some ((lr.locations.filter
          (fun l => l.within_geofence.getD false)).length)) ∧
    (∀ (db : List Row) (q : String) (limit : Nat) (clat clon rad : Option ℚ)
      (lr : LocationListResponse),
      search_by_postcode db q limit clat clon rad = .ok lr →
      lr.total_count = lr.locations.length ∧
      lr.within_radius_count =
        some ((if radiusTruthy rad then
          lr.locations.filter (fun l => l.within_geofence.getD false)
          else lr.locations).length)) := by
  constructor
  · intro db clat clon rad limit lr h
    unfold search_by_distance at h
    split at h
    · simp at h
    · split at h
      · simp at h
      · have hlr := (Except.ok.inj h).symm
        subst hlr
        exact ⟨rfl, rfl⟩
  · intro db q limit clat clon rad lr h
    obtain ⟨locations, heq, hlr⟩ := search_by_postcode_ok_inv h
    subst hlr
    exact ⟨rfl, rfl⟩

/-- The list response the plain postcode search for `SW1A` over `demoDb`
produces: one row, `within_radius_count` equal to the full count. -/
def demoPlainListResp : LocationListResponse :=
  { locations := [demoPlainResp], total_count := 1, within_radius_count := some 1 }

/-- Witness for the amended C7 at both endpoints. -/
theorem C7_count_bookkeeping_witness :
    (demoListResp.total_count = demoListResp.locations.length ∧
      demoListResp.within_radius_count =
        some ((demoListResp.locations.filter
          (fun l => l.within_geofence.getD false)).length)) ∧
    (demoPlainListResp.total_count = demoPlainListResp.locations.length ∧
      demoPlainListResp.within_radius_count =
        some ((if radiusTruthy none then
          demoPlainListResp.locations.filter
            (fun l => l.within_geofence.getD false)
          else demoPlainListResp.locations).length)) :=
  ⟨C7_count_bookkeeping.1 demoDb 0 0 15000 10 demoListResp (by decide),
   C7_count_bookkeeping.2 demoDb "SW1A" 10 none none none demoPlainListResp
     (by decide)⟩

/-- C7 counterexample: the postcode endpoint with no geofence returns one
row whose `within_geofence` flag is unset, yet reports
`within_radius_count = 1` — not the number (zero) of rows whose flag is
true. -/
theorem C7_counterexample :
    search_by_postcode demoDb "SW1A" 10 none none none = .ok demoPlainListResp ∧
    demoPlainListResp.within_radius_count = some 1 ∧
    (demoPlainListResp.locations.filter
      (fun l => l.within_geofence == some true)).length = 0 :=
  ⟨by decide, rfl, by decide⟩

/-- C10: a row matched by a non-geofence field search whose latitude or
longitude is `NULL` is neither an error nor dropped — it is returned with
latitude and longitude coerced to `0` and every `NULL` text column replaced
by the empty string.  (Under a geofence the SQL distance predicate evaluates
to `NULL` for such rows, so they are never matched there.) -/
theorem C10_null_coercion (db : List Row) (q : String) (limit : Nat)
    (rows : List LocationResponse) (r : Row) (pc : String)
    (hq : q ≠ "")
    (h : search_locations db q "Town" limit none none none = .ok rows)
    (hr : r ∈ (db.filter (fun x => substringFilter q "Town" x)).take limit)
    (hpc : r.postcode = some pc) :
    ({ postcode := pc, latitude := r.latitude.getD 0,
       longitude := r.longitude.getD 0, town := r.town.getD "",
       county := r.county.getD "", street1 := r.street1.getD "",
       street2 := r.street2.getD "", district1 := r.district1.getD "",
       district2 := r.district2.getD "", within_geofence := none,
       distance := none } : LocationResponse) ∈ rows := by
  rw [town_plain_inv hq h]
  refine List.mem_filterMap.mpr ⟨r, hr, ?_⟩
  unfold rowToResponse
  rw [hpc]

/-- A store row with `NULL` coordinates and `NULL` text columns apart from
its town. -/
def c10row : Row := { postcode := some "AB1 2CD", town := some "LONDON" }

/-- A one-row store for the C10 witness. -/
def c10db : List Row := [c10row]

/-- The coerced response of the town search for `LON` over `c10db`:
coordinates `0`, `NULL` text columns became empty strings. -/
def c10resp : LocationResponse :=
  { postcode := "AB1 2CD", latitude := 0, longitude := 0, town := "LONDON" }

/-- Witness for C10: the `NULL`-coordinate row is returned, coerced. -/
theorem C10_null_coercion_witness : c10resp ∈ ([c10resp] : List LocationResponse) :=
  C10_null_coercion c10db "LON" 10 [c10resp] c10row "AB1 2CD"
    (by decide) (by decide) (by decide) (by decide)

end MapSearcher
